import Mathlib

/-!
Shallow embedding of the session/capture state machine of
`src/components/widgets/FaceWidgets.tsx` and of the presentation function of
`src/components/widgets/TopEmotions.tsx` from the calhacks-hume-poker
repository, together with theorems settling the specification claims.

JS numbers are modelled as rationals; the mutable refs and React state of the
component are gathered into an explicit `SessionState`; each event handler is a
function `SessionState → SessionState × List Effect`, where the effect list
records, in program order, the externally visible actions the handler performs
(socket sends and closes, recorder creation and teardown, reconnection calls,
log lines).
-/

namespace HumePoker

/-- One emotion score returned by the server: a name and an intensity. -/
structure Emotion where
  name : String
  score : Rat
deriving DecidableEq, Repr

/-- A face bounding box (four numbers), as in `pred.bbox`. -/
structure BoundingBox where
  x : Rat
  y : Rat
  w : Rat
  h : Rat
deriving DecidableEq, Repr

/-- A tracked face holds just a bounding box (`TrackedFace` in the source). -/
structure TrackedFace where
  boundingBox : BoundingBox
deriving DecidableEq, Repr

/-- One face prediction of an inbound message: bounding box plus emotions. -/
structure FacePrediction where
  bbox : BoundingBox
  emotions : List Emotion
deriving DecidableEq, Repr

/-- An inbound server message after the defaulting done by `socketOnMessage`:
`predictions` is `response.face?.predictions || []`, `warning` is
`response.face?.warning || ""`, and `error` is the raw `response.error`
(absent or a string). -/
structure InboundMessage where
  predictions : List FacePrediction
  warning : String
  error : Option String
deriving DecidableEq, Repr

/-- WebSocket ready states. -/
inductive ReadyState
  | CONNECTING
  | OPEN
  | CLOSING
  | CLOSED
deriving DecidableEq, Repr

/-- The component's mutable refs and React state gathered into one record:
`socket` is `socketRef` (presence plus ready state), `recorder` is the
presence of `recorderRef`, `photo` the presence of `photoRef`, the rest map
one to one onto `mountRef`, `recorderCreated`, `numReconnects`,
`trackedFaces`, `emotions` and `status`. -/
structure SessionState where
  socket : Option ReadyState
  recorder : Bool
  photo : Bool
  mountRef : Bool
  recorderCreated : Bool
  numReconnects : Nat
  trackedFaces : List TrackedFace
  emotions : List Emotion
  status : String
deriving DecidableEq, Repr

/-- Externally visible actions a handler performs, in program order. -/
inductive Effect
  | connectCall
  | openSocket
  | sendFrame
  | closeSocket
  | stopRecorder
  | unsetMount
  | setCreatedFlag
  | createRecorder
  | calibrate (es : List Emotion)
  | logWarn (msg : String)
  | logError (msg : String)
deriving DecidableEq, Repr

/-- The retry ceiling `maxReconnects = 3` of the component. -/
def maxReconnects : Nat := 3

/-- Effect of `socket.close()` on a ready state. -/
def closeRS : ReadyState → ReadyState
  | ReadyState.CLOSED => ReadyState.CLOSED
  | _ => ReadyState.CLOSING

/-- JS truthiness of the `error` field: present and a non-empty string. -/
def errTruthy : Option String → Bool
  | none => false
  | some s => s != ""

/-- The fatal status template of `socketOnError` (a two-line template
literal interpolating `authContext.environment`). -/
def fatalStatus (environment : String) : String :=
  "Failed to connect to the Hume API (" ++ environment ++
    ").\n      Please log out and verify that your API key is correct."

/-- Remove the first occurrence of a period from a character list. -/
def removeFirstDot : List Char → List Char
  | [] => []
  | c :: cs => if c = '.' then cs else c :: removeFirstDot cs

/-- JS `warning.replace(".", "")`: with a plain string pattern, `replace`
removes only the first occurrence of the period. -/
def jsReplaceFirstDot (s : String) : String :=
  String.mk (removeFirstDot s.data)

/-- `sendRequest`: no socket means the attempt is logged and dropped; with a
socket, the frame is sent only when the ready state is OPEN, otherwise the
handler logs an error and calls `socket.close()`. -/
def sendRequest (s : SessionState) : SessionState × List Effect :=
  match s.socket with
  | none => (s, [Effect.logError "No socket found"])
  | some rs =>
    if rs = ReadyState.OPEN then
      (s, [Effect.sendFrame])
    else
      ({ s with socket := some (closeRS rs) },
        [Effect.logError "Socket connection not open. Will not capture a photo",
          Effect.closeSocket])

/-- `capturePhoto`: without a recorder the attempt is logged and dropped;
otherwise a frame is taken and handed to `sendRequest`. -/
def capturePhoto (s : SessionState) : SessionState × List Effect :=
  if s.recorder then sendRequest s
  else (s, [Effect.logError "No recorder found"])

/-- `stopEverything`: sets the mount flag to false first, then closes the
socket when one exists and stops the recorder when one exists, logging a
warning for each missing resource. -/
def stopEverything (s : SessionState) : SessionState × List Effect :=
  let s1 : SessionState := { s with mountRef := false }
  let socketStep : SessionState × List Effect :=
    match s1.socket with
    | some _ => ({ s1 with socket := none }, [Effect.closeSocket])
    | none => (s1, [Effect.logWarn "Could not close socket, not initialized yet"])
  let s2 := socketStep.1
  let recorderStep : SessionState × List Effect :=
    if s2.recorder then
      ({ s2 with recorder := false }, [Effect.stopRecorder])
    else
      (s2, [Effect.logWarn "Could not stop recorder, not initialized yet"])
  (recorderStep.1, Effect.unsetMount :: socketStep.2 ++ recorderStep.2)

/-- `connect`: a no-op when a socket exists in the OPEN state, otherwise it
sets a connecting status and installs a fresh socket. -/
def connect (s : SessionState) : SessionState × List Effect :=
  match s.socket with
  | some ReadyState.OPEN => (s, [])
  | _ =>
    ({ s with
        socket := some ReadyState.CONNECTING
        status := "Connecting to server..." },
      [Effect.openSocket])

/-- `socketOnOpen`: sets the webcam status, then captures a photo when a
recorder exists, otherwise logs a warning. -/
def socketOnOpen (s : SessionState) : SessionState × List Effect :=
  let s1 : SessionState := { s with status := "Connecting to webcam..." }
  if s1.recorder then capturePhoto s1
  else (s1, [Effect.logWarn "No video recorder exists yet to use with the open socket"])

/-- `socketOnClose`: while mounted, sets a reconnecting status and calls
`connect`; once unmounted it does nothing. -/
def socketOnClose (s : SessionState) : SessionState × List Effect :=
  if s.mountRef then
    let r := connect { s with status := "Reconnecting" }
    (r.1, Effect.connectCall :: r.2)
  else (s, [])

/-- `socketOnError`: at or above the ceiling, sets the fatal status naming
the environment and tears everything down; below it, increments the counter
and logs the attempt. -/
def socketOnError (environment : String) (s : SessionState) :
    SessionState × List Effect :=
  if s.numReconnects ≥ maxReconnects then
    let r := stopEverything { s with status := fatalStatus environment }
    (r.1, r.2)
  else
    ({ s with numReconnects := s.numReconnects + 1 },
      [Effect.logWarn "Connection attempt"])

/-- `socketOnMessage`: clears the status; on a truthy error, surfaces it and
tears everything down; otherwise on empty predictions clears the emotions and
shows the warning with its first period removed, on non-empty predictions
replaces the emotions with the first face's list (calibrating when a callback
is installed), then replaces the tracked faces and captures the next photo. -/
def socketOnMessage (cal : Bool) (m : InboundMessage) (s : SessionState) :
    SessionState × List Effect :=
  let s1 : SessionState := { s with status := "" }
  if errTruthy m.error then
    let e := m.error.getD ""
    let r := stopEverything { s1 with status := e }
    (r.1, Effect.logError e :: r.2)
  else
    let s2 : SessionState :=
      if m.predictions.length = 0 then
        { s1 with status := jsReplaceFirstDot m.warning, emotions := [] }
      else s1
    let primaryStep : SessionState × List Effect :=
      match m.predictions with
      | [] => (s2, [])
      | p :: _ =>
        ({ s2 with emotions := p.emotions },
          if cal then [Effect.calibrate p.emotions] else [])
    let s4 : SessionState :=
      { primaryStep.1 with
          trackedFaces := m.predictions.map (fun p => ⟨p.bbox⟩) }
    let r := capturePhoto s4
    (r.1, primaryStep.2 ++ r.2)

/-- First phase of `onVideoReady`, up to the `await` of the recorder
creation: checks the photo element, then the creation guard, and sets the
`recorderCreated` flag before any asynchronous work; the boolean reports
whether creation was started. -/
def onVideoReadyBegin (s : SessionState) : SessionState × Bool × List Effect :=
  if s.photo = false then
    (s, false, [Effect.logError "No photo element found"])
  else if s.recorder = false ∧ s.recorderCreated = false then
    ({ s with recorderCreated := true }, true, [Effect.setCreatedFlag])
  else
    (s, false, [])

/-- Second phase of `onVideoReady`: the created recorder is installed; when
the socket is open a first photo is captured, otherwise a warning is
logged. -/
def onVideoReadyFinish (s : SessionState) : SessionState × List Effect :=
  let s1 : SessionState := { s with recorder := true }
  if s1.socket = some ReadyState.OPEN then
    let r := capturePhoto s1
    (r.1, Effect.createRecorder :: r.2)
  else
    (s1, [Effect.createRecorder,
      Effect.logWarn "No socket available for sending photos"])

/-- `onVideoReady` run to completion: both phases in sequence when creation
starts. -/
def onVideoReady (s : SessionState) : SessionState × List Effect :=
  let b := onVideoReadyBegin s
  if b.2.1 then
    let r := onVideoReadyFinish b.1
    (r.1, b.2.2 ++ r.2)
  else (b.1, b.2.2)

/-- The socket/session events a mounted view can receive. -/
inductive SocketEvent
  | opened
  | message (m : InboundMessage)
  | closed
  | errored
  | videoReady
deriving DecidableEq, Repr

/-- Dispatch one event to its handler. -/
def step (environment : String) (cal : Bool) :
    SocketEvent → SessionState → SessionState × List Effect
  | SocketEvent.opened, s => socketOnOpen s
  | SocketEvent.message m, s => socketOnMessage cal m s
  | SocketEvent.closed, s => socketOnClose s
  | SocketEvent.errored, s => socketOnError environment s
  | SocketEvent.videoReady, s => onVideoReady s

/-- Run a list of events in order, concatenating the effect traces. -/
def runEvents (environment : String) (cal : Bool) :
    List SocketEvent → SessionState → SessionState × List Effect
  | [], s => (s, [])
  | e :: es, s =>
    let r := step environment cal e s
    let rest := runEvents environment cal es r.1
    (rest.1, r.2 ++ rest.2)

/-- Deliver a list of messages to `socketOnMessage` in order. -/
def runMessages (cal : Bool) : List InboundMessage → SessionState → SessionState
  | [], s => s
  | m :: ms, s => runMessages cal ms (socketOnMessage cal m s).1

/-- The primary (first) face's emotion list of a message, empty when the
message has no predictions. -/
def primaryEmotions (m : InboundMessage) : List Emotion :=
  match m.predictions with
  | [] => []
  | p :: _ => p.emotions

/-- The state of a freshly mounted component. -/
def freshState : SessionState :=
  { socket := none
    recorder := false
    photo := false
    mountRef := true
    recorderCreated := false
    numReconnects := 0
    trackedFaces := []
    emotions := []
    status := "" }

/-! ### Presentation layer: `TopEmotions` -/

/-- The descending-by-score ordering used by the render's comparator
`(a, b) => b.score - a.score`. -/
def scoreGe (a b : Emotion) : Prop := b.score ≤ a.score

instance : DecidableRel scoreGe :=
  fun a b => inferInstanceAs (Decidable (b.score ≤ a.score))

instance : IsTotal Emotion scoreGe :=
  ⟨fun a b => (le_total a.score b.score).symm⟩

instance : IsTrans Emotion scoreGe :=
  ⟨fun _ _ _ hab hbc => le_trans hbc hab⟩

/-- The stable descending sort that `emotions.sort(...)` performs in place. -/
def sortDesc (es : List Emotion) : List Emotion :=
  List.insertionSort scoreGe es

/-- `pos_emotions` of `TopEmotions`. -/
def posEmotionNames : List String :=
  ["Calmness", "Concentration", "Contemplation", "Boredom"]

/-- `neg_emotions` of `TopEmotions`. -/
def negEmotionNames : List String :=
  ["Disappointment", "Contempt", "Sadness", "Distress", "Anxiety"]

/-- The emotions whose name is in the positive list. -/
def posFilter (es : List Emotion) : List Emotion :=
  es.filter fun e => posEmotionNames.contains e.name

/-- The emotions whose name is in the negative list. -/
def negFilter (es : List Emotion) : List Emotion :=
  es.filter fun e => negEmotionNames.contains e.name

/-- `pos_metric`: fold adding each positive-named score, starting from 0. -/
def pos_metric (es : List Emotion) : Rat :=
  (posFilter es).foldl (fun acc e => acc + e.score) 0

/-- `neg_metric`: fold subtracting each negative-named score, starting
from 0. -/
def neg_metric (es : List Emotion) : Rat :=
  (negFilter es).foldl (fun acc e => acc - e.score) 0

/-- `val = (pos_metric + neg_metric) * 100 * 100 / 100`. -/
def metricVal (es : List Emotion) : Rat :=
  (pos_metric es + neg_metric es) * 100 * 100 / 100

/-- Plain sum of the scores of a list of emotions. -/
def scoreSum : List Emotion → Rat
  | [] => 0
  | e :: es => e.score + scoreSum es

/-- Sum of the scores of the positive-named emotions. -/
def sumPos (es : List Emotion) : Rat := scoreSum (posFilter es)

/-- Sum of the scores of the negative-named emotions. -/
def sumNeg (es : List Emotion) : Rat := scoreSum (negFilter es)

/-- The `getActionMessage` label: one string above the threshold, the other
at or below it. -/
def actionMessage (es : List Emotion) : String :=
  if metricVal es > 50 then "Great work, keep up your poker face. :|"
  else "Calm down, you might be tilting!"

/-- What one render of `TopEmotions` produces and leaves behind: the top
rows displayed, the action label, the displayed metric, and the contents of
the `emotions` prop array after the render (the sort happens in place). -/
structure RenderResult where
  rows : List Emotion
  label : String
  metric : Rat
  postProps : List Emotion
deriving DecidableEq, Repr

/-- One render of `TopEmotions` with the given props. -/
def renderTopEmotions (es : List Emotion) (numEmotions : Nat) : RenderResult :=
  let sorted := sortDesc es
  { rows := sorted.take numEmotions
    label := actionMessage es
    metric := metricVal es
    postProps := sorted }

/-! ### Helper lemmas about the handlers -/

/-- Number of recorder-creation actions in an effect trace. -/
def countCreate : List Effect → Nat
  | [] => 0
  | Effect.createRecorder :: es => countCreate es + 1
  | _ :: es => countCreate es

/-- Creation guard potential: 1 while the guard flag is unset, 0 after. -/
def pot (s : SessionState) : Nat := if s.recorderCreated then 0 else 1

lemma countCreate_append (l1 l2 : List Effect) :
    countCreate (l1 ++ l2) = countCreate l1 + countCreate l2 := by
  induction l1 with
  | nil => simp [countCreate]
  | cons e t ih => cases e <;> simp [countCreate, ih] <;> omega

lemma sendRequest_fields (s : SessionState) :
    (sendRequest s).1.emotions = s.emotions ∧
    (sendRequest s).1.trackedFaces = s.trackedFaces ∧
    (sendRequest s).1.status = s.status ∧
    (sendRequest s).1.mountRef = s.mountRef ∧
    (sendRequest s).1.numReconnects = s.numReconnects ∧
    (sendRequest s).1.recorder = s.recorder ∧
    (sendRequest s).1.recorderCreated = s.recorderCreated ∧
    (sendRequest s).1.photo = s.photo ∧
    countCreate (sendRequest s).2 = 0 := by
  rcases h : s.socket with _ | rs
  · simp [sendRequest, h, countCreate]
  · by_cases hrs : rs = ReadyState.OPEN <;> simp [sendRequest, h, hrs, countCreate]

lemma capturePhoto_fields (s : SessionState) :
    (capturePhoto s).1.emotions = s.emotions ∧
    (capturePhoto s).1.trackedFaces = s.trackedFaces ∧
    (capturePhoto s).1.status = s.status ∧
    (capturePhoto s).1.mountRef = s.mountRef ∧
    (capturePhoto s).1.numReconnects = s.numReconnects ∧
    (capturePhoto s).1.recorder = s.recorder ∧
    (capturePhoto s).1.recorderCreated = s.recorderCreated ∧
    (capturePhoto s).1.photo = s.photo ∧
    countCreate (capturePhoto s).2 = 0 := by
  by_cases hr : s.recorder
  · simpa [capturePhoto, hr] using sendRequest_fields s
  · simp [capturePhoto, hr, countCreate]

lemma stopEverything_fields (s : SessionState) :
    (stopEverything s).1.mountRef = false ∧
    (stopEverything s).1.socket = none ∧
    (stopEverything s).1.recorder = false ∧
    (stopEverything s).1.recorderCreated = s.recorderCreated ∧
    (stopEverything s).1.numReconnects = s.numReconnects ∧
    (stopEverything s).1.emotions = s.emotions ∧
    (stopEverything s).1.trackedFaces = s.trackedFaces ∧
    (stopEverything s).1.status = s.status ∧
    (stopEverything s).1.photo = s.photo ∧
    countCreate (stopEverything s).2 = 0 := by
  rcases h : s.socket with _ | rs <;> by_cases hr : s.recorder <;>
    simp [stopEverything, h, hr, countCreate, countCreate_append]

lemma stopEverything_trace (s : SessionState) :
    ((stopEverything s).2.head? = some Effect.unsetMount) ∧
    (s.socket.isSome = true → Effect.closeSocket ∈ (stopEverything s).2) ∧
    (s.recorder = true → Effect.stopRecorder ∈ (stopEverything s).2) ∧
    Effect.connectCall ∉ (stopEverything s).2 ∧
    Effect.sendFrame ∉ (stopEverything s).2 ∧
    Effect.openSocket ∉ (stopEverything s).2 ∧
    (∀ es : List Emotion, Effect.calibrate es ∉ (stopEverything s).2) := by
  rcases h : s.socket with _ | rs <;> by_cases hr : s.recorder <;>
    simp [stopEverything, h, hr]

lemma connect_fields (s : SessionState) :
    (connect s).1.numReconnects = s.numReconnects ∧
    (connect s).1.recorderCreated = s.recorderCreated ∧
    (connect s).1.recorder = s.recorder ∧
    (connect s).1.emotions = s.emotions ∧
    (connect s).1.mountRef = s.mountRef ∧
    countCreate (connect s).2 = 0 := by
  rcases h : s.socket with _ | rs
  · simp [connect, h, countCreate]
  · cases rs <;> simp [connect, h, countCreate]

lemma socketOnOpen_fields (s : SessionState) :
    (socketOnOpen s).1.numReconnects = s.numReconnects ∧
    (socketOnOpen s).1.recorderCreated = s.recorderCreated ∧
    countCreate (socketOnOpen s).2 = 0 := by
  by_cases hr : s.recorder <;>
    rcases hs : s.socket with _ | rs <;>
      simp [socketOnOpen, capturePhoto, sendRequest, hr, hs, countCreate] <;>
      (try split_ifs) <;> simp [countCreate]

lemma socketOnClose_fields (s : SessionState) :
    (socketOnClose s).1.numReconnects = s.numReconnects ∧
    (socketOnClose s).1.recorderCreated = s.recorderCreated ∧
    countCreate (socketOnClose s).2 = 0 := by
  by_cases hm : s.mountRef <;>
    rcases hs : s.socket with _ | rs <;>
      (try cases rs) <;>
      simp [socketOnClose, connect, hm, hs, countCreate]

lemma socketOnError_fields (environment : String) (s : SessionState) :
    s.numReconnects ≤ (socketOnError environment s).1.numReconnects ∧
    (socketOnError environment s).1.recorderCreated = s.recorderCreated ∧
    countCreate (socketOnError environment s).2 = 0 := by
  by_cases hn : s.numReconnects ≥ maxReconnects <;>
    rcases hs : s.socket with _ | rs <;>
      by_cases hr : s.recorder <;>
        simp [socketOnError, stopEverything, hn, hs, hr, countCreate,
          countCreate_append]

lemma socketOnMessage_fields (cal : Bool) (m : InboundMessage) (s : SessionState) :
    (socketOnMessage cal m s).1.numReconnects = s.numReconnects ∧
    (socketOnMessage cal m s).1.recorderCreated = s.recorderCreated ∧
    countCreate (socketOnMessage cal m s).2 = 0 := by
  cases cal <;> by_cases he : errTruthy m.error <;>
    rcases hp : m.predictions with _ | ⟨p, ps⟩ <;>
      by_cases hr : s.recorder <;>
        rcases hs : s.socket with _ | rs <;>
          simp [socketOnMessage, capturePhoto, sendRequest, stopEverything,
            he, hp, hr, hs, countCreate, countCreate_append] <;>
          (try split_ifs) <;> simp [countCreate, countCreate_append]

lemma onVideoReady_pot (s : SessionState) :
    countCreate (onVideoReady s).2 + pot (onVideoReady s).1 ≤ pot s ∧
    (onVideoReady s).1.numReconnects = s.numReconnects := by
  by_cases hp : s.photo <;>
    by_cases hr : s.recorder <;>
      by_cases hc : s.recorderCreated <;>
        rcases hs : s.socket with _ | rs <;>
          (try cases rs) <;>
          simp [onVideoReady, onVideoReadyBegin, onVideoReadyFinish,
            capturePhoto, sendRequest, pot, hp, hr, hc, hs, countCreate,
            countCreate_append]

lemma step_pot (environment : String) (cal : Bool) (e : SocketEvent)
    (s : SessionState) :
    countCreate (step environment cal e s).2 + pot (step environment cal e s).1
        ≤ pot s ∧
    s.numReconnects ≤ (step environment cal e s).1.numReconnects := by
  cases e with
  | opened =>
    obtain ⟨h1, h2, h3⟩ := socketOnOpen_fields s
    exact ⟨by simp [step, pot, h2, h3], by simp [step, h1]⟩
  | message m =>
    obtain ⟨h1, h2, h3⟩ := socketOnMessage_fields cal m s
    exact ⟨by simp [step, pot, h2, h3], by simp [step, h1]⟩
  | closed =>
    obtain ⟨h1, h2, h3⟩ := socketOnClose_fields s
    exact ⟨by simp [step, pot, h2, h3], by simp [step, h1]⟩
  | errored =>
    obtain ⟨h1, h2, h3⟩ := socketOnError_fields environment s
    exact ⟨by simp [step, pot, h2, h3], by simpa [step] using h1⟩
  | videoReady =>
    obtain ⟨h1, h2⟩ := onVideoReady_pot s
    exact ⟨by simpa [step] using h1, by simp [step, h2]⟩

lemma runEvents_pot (environment : String) (cal : Bool)
    (evs : List SocketEvent) (s : SessionState) :
    countCreate (runEvents environment cal evs s).2 +
        pot (runEvents environment cal evs s).1 ≤ pot s ∧
    s.numReconnects ≤ (runEvents environment cal evs s).1.numReconnects := by
  induction evs generalizing s with
  | nil => simp [runEvents, countCreate]
  | cons e t ih =>
    obtain ⟨h1, h2⟩ := step_pot environment cal e s
    obtain ⟨ih1, ih2⟩ := ih (step environment cal e s).1
    refine ⟨?_, ?_⟩
    · simp only [runEvents, countCreate_append]
      omega
    · simp only [runEvents]
      exact le_trans h2 ih2

lemma pot_le_one (s : SessionState) : pot s ≤ 1 := by
  unfold pot; split <;> omega

lemma socketOnMessage_emotions (cal : Bool) (m : InboundMessage)
    (s : SessionState) (h : errTruthy m.error = false) :
    (socketOnMessage cal m s).1.emotions = primaryEmotions m := by
  cases cal <;> rcases hp : m.predictions with _ | ⟨p, ps⟩ <;>
    by_cases hr : s.recorder <;>
      rcases hs : s.socket with _ | rs <;>
        simp [socketOnMessage, capturePhoto, sendRequest, primaryEmotions,
          h, hp, hr, hs] <;>
        (try split_ifs) <;> simp

/-- The emotion state a message sequence leaves behind, message by message:
each message overwrites the state with its primary face's emotions (empty
when it has no predictions). -/
def lastPrimary (init : List Emotion) : List InboundMessage → List Emotion
  | [] => init
  | m :: ms => lastPrimary (primaryEmotions m) ms

lemma runMessages_emotions (cal : Bool) (ms : List InboundMessage)
    (s : SessionState) (h : ∀ m ∈ ms, errTruthy m.error = false) :
    (runMessages cal ms s).emotions = lastPrimary s.emotions ms := by
  induction ms generalizing s with
  | nil => simp [runMessages, lastPrimary]
  | cons m t ih =>
    rw [runMessages, lastPrimary,
      ih (socketOnMessage cal m s).1 (fun x hx => h x (List.mem_cons_of_mem m hx)),
      socketOnMessage_emotions cal m s (h m (List.mem_cons_self m t))]

lemma lastPrimary_of_getLast (ms : List InboundMessage) (m : InboundMessage)
    (h : ms.getLast? = some m) :
    ∀ init, lastPrimary init ms = primaryEmotions m := by
  induction ms with
  | nil => cases h
  | cons a t ih =>
    intro init
    cases t with
    | nil =>
      simp only [List.getLast?_singleton, Option.some.injEq] at h
      simp [lastPrimary, h]
    | cons b t2 =>
      rw [List.getLast?_cons_cons] at h
      rw [lastPrimary]
      exact ih h _

/-! ### Sample data for witnesses and counterexamples -/

/-- A sample bounding box. -/
def bboxEx : BoundingBox := ⟨0, 0, 100, 100⟩

/-- A sample emotion score. -/
def joyEmotion : Emotion := ⟨"Joy", 9/10⟩

/-- A message with one detected face. -/
def msgFaces : InboundMessage :=
  { predictions := [⟨bboxEx, [joyEmotion]⟩], warning := "", error := none }

/-- A message with no detected faces and the canonical warning. -/
def msgEmpty : InboundMessage :=
  { predictions := [], warning := "No faces detected.", error := none }

/-! ### The claims -/

/-- Claim C1: delivering any sequence of (non-error) server messages to the
message handler leaves the emotion state tracking exactly the most recent
message: a final message with predictions leaves its primary (first) face's
emotion list, and a final message with an empty prediction list leaves the
empty emotion list rather than an older message's list. -/
theorem C1_emotions_track_latest_message (cal : Bool) (s : SessionState)
    (ms : List InboundMessage) (h : ∀ m ∈ ms, errTruthy m.error = false) :
    (runMessages cal ms s).emotions = lastPrimary s.emotions ms ∧
    (∀ m p ps, ms.getLast? = some m → m.predictions = p :: ps →
      (runMessages cal ms s).emotions = p.emotions) ∧
    (∀ m, ms.getLast? = some m → m.predictions = [] →
      (runMessages cal ms s).emotions = []) := by
  refine ⟨runMessages_emotions cal ms s h, ?_, ?_⟩
  · intro m p ps hl hp
    rw [runMessages_emotions cal ms s h, lastPrimary_of_getLast ms m hl]
    simp [primaryEmotions, hp]
  · intro m hl hp
    rw [runMessages_emotions cal ms s h, lastPrimary_of_getLast ms m hl]
    simp [primaryEmotions, hp]

/-- Witness for C1: after a message with one face followed by a message with
no predictions, the emotion state is empty, not the older face's list. -/
theorem C1_emotions_track_latest_message_witness :
    (∀ m ∈ [msgFaces, msgEmpty], errTruthy m.error = false) ∧
    (runMessages false [msgFaces, msgEmpty] freshState).emotions = [] := by
  refine ⟨by decide, ?_⟩
  exact (C1_emotions_track_latest_message false freshState [msgFaces, msgEmpty]
    (by decide)).2.2 msgEmpty (by decide) (by decide)

/-- Claim C10: the reconnect counter never decreases: every single handler
step, and hence every sequence of socket events, leaves `numReconnects` at
least as large as before, so once positive it can never return to zero
within the same mount. -/
theorem C10_reconnect_counter_monotone (environment : String) (cal : Bool)
    (e : SocketEvent) (evs : List SocketEvent) (s : SessionState) :
    s.numReconnects ≤ (step environment cal e s).1.numReconnects ∧
    s.numReconnects ≤ (runEvents environment cal evs s).1.numReconnects :=
  ⟨(step_pot environment cal e s).2, (runEvents_pot environment cal evs s).2⟩

/-- A mounted state whose hidden canvas element is ready. -/
def videoState : SessionState := { freshState with photo := true }

/-- Claim C9: the frame-grabbing recorder is created at most once per mount:
any sequence of events produces at most one creation; once the guard flag is
set, an `onVideoReady` call is a no-op that creates nothing and no event
sequence creates a recorder; and on an eligible state the guard flag is set
by the first (pre-await) phase of `onVideoReady` — before the creation
itself, as the effect order shows — so a second call arriving during the
asynchronous creation starts no second creation. -/
theorem C9_recorder_created_at_most_once (environment : String) (cal : Bool)
    (evs : List SocketEvent) (s : SessionState) :
    countCreate (runEvents environment cal evs s).2 ≤ 1 ∧
    (s.recorderCreated = true →
      countCreate (runEvents environment cal evs s).2 = 0 ∧
      (onVideoReady s).1 = s ∧
      Effect.createRecorder ∉ (onVideoReady s).2) ∧
    (s.photo = true → s.recorder = false → s.recorderCreated = false →
      ((onVideoReadyBegin s).1.recorderCreated = true ∧
        (onVideoReadyBegin (onVideoReadyBegin s).1).2.1 = false ∧
        (onVideoReady s).2.take 2 =
          [Effect.setCreatedFlag, Effect.createRecorder])) := by
  obtain ⟨hpot, -⟩ := runEvents_pot environment cal evs s
  have hle : pot s ≤ 1 := pot_le_one s
  refine ⟨by omega, ?_, ?_⟩
  · intro hc
    have hz : pot s = 0 := by simp [pot, hc]
    refine ⟨by omega, ?_, ?_⟩
    · by_cases hp : s.photo <;>
        simp [onVideoReady, onVideoReadyBegin, hp, hc]
    · by_cases hp : s.photo <;>
        simp [onVideoReady, onVideoReadyBegin, hp, hc]
  · intro hp hr hc
    refine ⟨by simp [onVideoReadyBegin, hp, hr, hc], ?_, ?_⟩
    · simp [onVideoReadyBegin, hp, hr, hc]
    · rcases hs : s.socket with _ | rs <;>
        (try cases rs) <;>
        simp [onVideoReady, onVideoReadyBegin, onVideoReadyFinish,
          capturePhoto, sendRequest, hp, hr, hc, hs]

/-- Witness for C9: from a fresh state with a ready canvas, two video-ready
events create exactly at most one recorder, and the guard behaves as stated
on the eligible fresh state. -/
theorem C9_recorder_created_at_most_once_witness :
    countCreate (runEvents "prod" false
      [SocketEvent.videoReady, SocketEvent.videoReady] videoState).2 ≤ 1 ∧
    ((onVideoReadyBegin videoState).1.recorderCreated = true ∧
      (onVideoReadyBegin (onVideoReadyBegin videoState).1).2.1 = false ∧
      (onVideoReady videoState).2.take 2 =
        [Effect.setCreatedFlag, Effect.createRecorder]) := by
  obtain ⟨h1, -, h3⟩ :=
    C9_recorder_created_at_most_once "prod" false
      [SocketEvent.videoReady, SocketEvent.videoReady] videoState
  exact ⟨h1, h3 rfl rfl rfl⟩

lemma socketOnError_no_connect (environment : String) (t : SessionState) :
    Effect.connectCall ∉ (socketOnError environment t).2 ∧
    Effect.openSocket ∉ (socketOnError environment t).2 := by
  by_cases hn : t.numReconnects ≥ maxReconnects <;>
    rcases hs : t.socket with _ | rs <;>
      by_cases hr : t.recorder <;>
        simp [socketOnError, stopEverything, hn, hs, hr]

lemma socketOnError_below (environment : String) (s : SessionState)
    (h : s.numReconnects < maxReconnects) :
    socketOnError environment s =
      ({ s with numReconnects := s.numReconnects + 1 },
        [Effect.logWarn "Connection attempt"]) := by
  have h2 : ¬ s.numReconnects ≥ maxReconnects := Nat.not_le.mpr h
  simp [socketOnError, h2]

/-- One transport-error step: the state after `socketOnError`. -/
def errStep (environment : String) (s : SessionState) : SessionState :=
  (socketOnError environment s).1

/-- Claim C2: with the retry ceiling at 3, starting from a zero counter the
first three socket errors each increment the counter by one and tear nothing
down; the fourth error sets a fatal status mentioning the configured
environment, tears everything down, and triggers no automatic `connect`
call — not even through the close handler firing on the torn-down state —
and the counter never exceeds the ceiling. -/
theorem C2_retry_ceiling (environment : String) (s : SessionState)
    (h0 : s.numReconnects = 0) :
    (errStep environment s).numReconnects = 1 ∧
    (errStep environment (errStep environment s)).numReconnects = 2 ∧
    (errStep environment (errStep environment (errStep environment s))).numReconnects
      = 3 ∧
    (errStep environment (errStep environment (errStep environment s))).socket
      = s.socket ∧
    (errStep environment (errStep environment (errStep environment s))).mountRef
      = s.mountRef ∧
    (errStep environment (errStep environment (errStep environment s))).recorder
      = s.recorder ∧
    (socketOnError environment s).2 = [Effect.logWarn "Connection attempt"] ∧
    (socketOnError environment
        (errStep environment (errStep environment (errStep environment s)))).1.status
      = fatalStatus environment ∧
    (∃ pre post, fatalStatus environment = pre ++ environment ++ post) ∧
    (socketOnError environment
        (errStep environment (errStep environment (errStep environment s)))).1.mountRef
      = false ∧
    (socketOnError environment
        (errStep environment (errStep environment (errStep environment s)))).1.socket
      = none ∧
    (socketOnError environment
        (errStep environment (errStep environment (errStep environment s)))).1.recorder
      = false ∧
    (socketOnError environment
        (errStep environment (errStep environment (errStep environment s)))).1.numReconnects
      = 3 ∧
    Effect.connectCall ∉ (socketOnError environment
        (errStep environment (errStep environment (errStep environment s)))).2 ∧
    (socketOnClose (socketOnError environment
        (errStep environment (errStep environment (errStep environment s)))).1).2
      = [] ∧
    (∀ t : SessionState, t.numReconnects ≤ maxReconnects →
      (socketOnError environment t).1.numReconnects ≤ maxReconnects) := by
  have e1 : errStep environment s = { s with numReconnects := 1 } := by
    rw [errStep, socketOnError_below environment s (by simp [h0, maxReconnects]),
      h0]
  have e2 : errStep environment (errStep environment s)
      = { s with numReconnects := 2 } := by
    rw [e1, errStep,
      socketOnError_below environment { s with numReconnects := 1 }
        (by simp [maxReconnects])]
  have e3 : errStep environment (errStep environment (errStep environment s))
      = { s with numReconnects := 3 } := by
    rw [e2, errStep,
      socketOnError_below environment { s with numReconnects := 2 }
        (by simp [maxReconnects])]
  have hfatal : ({ s with numReconnects := 3 } : SessionState).numReconnects
      ≥ maxReconnects := by simp [maxReconnects]
  have hs4 := stopEverything_fields
    { ({ s with numReconnects := 3 } : SessionState) with
        status := fatalStatus environment }
  have ht4 := socketOnError_no_connect environment { s with numReconnects := 3 }
  have e4 : (socketOnError environment ({ s with numReconnects := 3 })).1
      = (stopEverything
          { ({ s with numReconnects := 3 } : SessionState) with
              status := fatalStatus environment }).1 := by
    simp [socketOnError, hfatal]
  refine ⟨by rw [e1], by rw [e2], by rw [e3], by rw [e3], by rw [e3], by rw [e3],
    ?_, ?_, ?_, ?_, ?_, ?_, ?_, ?_, ?_, ?_⟩
  · rw [socketOnError_below environment s (by simp [h0, maxReconnects])]
  · rw [e3, e4]; exact hs4.2.2.2.2.2.2.2.1
  · exact ⟨"Failed to connect to the Hume API (",
      ").\n      Please log out and verify that your API key is correct.", rfl⟩
  · rw [e3, e4]; exact hs4.1
  · rw [e3, e4]; exact hs4.2.1
  · rw [e3, e4]; exact hs4.2.2.1
  · rw [e3, e4]; exact hs4.2.2.2.2.1
  · rw [e3]; exact ht4.1
  · rw [e3]; simp [socketOnClose, e4, hs4.1]
  · intro t ht
    by_cases hn : t.numReconnects ≥ maxReconnects
    · have h := stopEverything_fields
        { t with status := fatalStatus environment }
      simp only [socketOnError, hn, if_pos]
      simpa using le_trans (le_of_eq h.2.2.2.2.1) ht
    · have hlt : t.numReconnects < maxReconnects := Nat.lt_of_not_le hn
      rw [socketOnError_below environment t hlt]
      simpa using hlt

/-- Witness for C2: from a fresh mount, three errors reach counter 3 without
teardown and the fourth error is fatal, mentions the environment, and makes
no `connect` call. -/
theorem C2_retry_ceiling_witness :
    (errStep "prod" freshState).numReconnects = 1 ∧
    (errStep "prod" (errStep "prod" (errStep "prod" freshState))).numReconnects
      = 3 ∧
    (socketOnError "prod"
        (errStep "prod" (errStep "prod" (errStep "prod" freshState)))).1.status
      = fatalStatus "prod" ∧
    (∃ pre post, fatalStatus "prod" = pre ++ "prod" ++ post) ∧
    Effect.connectCall ∉ (socketOnError "prod"
        (errStep "prod" (errStep "prod" (errStep "prod" freshState)))).2 ∧
    (socketOnClose (socketOnError "prod"
        (errStep "prod" (errStep "prod" (errStep "prod" freshState)))).1).2
      = [] := by
  obtain ⟨h1, -, h3, -, -, -, -, h8, h9, -, -, -, -, h14, h15, -⟩ :=
    C2_retry_ceiling "prod" freshState rfl
  exact ⟨h1, h3, h8, h9, h14, h15⟩

/-- Claim C3: a message whose payload carries a non-empty error string sets
the session status to that string, tears everything down (socket closed and
cleared, recorder released, mount flag off), performs no further processing
of the message — emotions and tracked faces untouched, nothing sent, no
calibration — and a close event arriving afterwards attempts no
reconnection. -/
theorem C3_server_error_fatal (cal : Bool) (s : SessionState)
    (m : InboundMessage) (e : String) (he : m.error = some e)
    (hne : e ≠ "") :
    (socketOnMessage cal m s).1.status = e ∧
    (socketOnMessage cal m s).1.emotions = s.emotions ∧
    (socketOnMessage cal m s).1.trackedFaces = s.trackedFaces ∧
    (socketOnMessage cal m s).1.socket = none ∧
    (socketOnMessage cal m s).1.recorder = false ∧
    (socketOnMessage cal m s).1.mountRef = false ∧
    Effect.sendFrame ∉ (socketOnMessage cal m s).2 ∧
    Effect.connectCall ∉ (socketOnMessage cal m s).2 ∧
    Effect.openSocket ∉ (socketOnMessage cal m s).2 ∧
    (∀ es, Effect.calibrate es ∉ (socketOnMessage cal m s).2) ∧
    (s.socket.isSome = true → Effect.closeSocket ∈ (socketOnMessage cal m s).2) ∧
    (s.recorder = true → Effect.stopRecorder ∈ (socketOnMessage cal m s).2) ∧
    (socketOnClose (socketOnMessage cal m s).1).1 = (socketOnMessage cal m s).1 ∧
    (socketOnClose (socketOnMessage cal m s).1).2 = [] := by
  have htr : errTruthy (some e) = true := by simp [errTruthy, hne]
  rcases hs : s.socket with _ | rs <;>
    by_cases hr : s.recorder <;>
      simp [socketOnMessage, stopEverything, socketOnClose, he, htr, hs, hr]

/-- A state in which a webcam recorder exists and the socket is open. -/
def liveState : SessionState :=
  { freshState with
      socket := some ReadyState.OPEN
      recorder := true
      photo := true
      recorderCreated := true }

/-- The server error message of the spec's example. -/
def msgApiError : InboundMessage :=
  { predictions := [], warning := "", error := some "invalid api key" }

/-- Witness for C3: an `invalid api key` error on a live session surfaces
that string as status, closes the socket, stops the recorder, and the
follow-up close event does nothing. -/
theorem C3_server_error_fatal_witness :
    (socketOnMessage false msgApiError liveState).1.status = "invalid api key" ∧
    (socketOnMessage false msgApiError liveState).1.socket = none ∧
    Effect.closeSocket ∈ (socketOnMessage false msgApiError liveState).2 ∧
    Effect.stopRecorder ∈ (socketOnMessage false msgApiError liveState).2 ∧
    Effect.sendFrame ∉ (socketOnMessage false msgApiError liveState).2 ∧
    (socketOnClose (socketOnMessage false msgApiError liveState).1).2 = [] := by
  obtain ⟨h1, -, -, h4, -, -, h7, -, -, -, h11, h12, -, h14⟩ :=
    C3_server_error_fatal false liveState msgApiError "invalid api key" rfl
      (by decide)
  exact ⟨h1, h4, h11 rfl, h12 rfl, h7, h14⟩

/-- Claim C4: tearing down always ends with the mount flag false, the socket
closed and cleared, and the recorder released, whatever their prior state;
the flag is unset as the very first action — before the socket close — so a
close or error event firing against the torn-down state performs no
reconnection attempt and makes no `connect` call. -/
theorem C4_teardown_suppresses_reconnect (environment : String)
    (s : SessionState) :
    (stopEverything s).1.mountRef = false ∧
    (stopEverything s).1.socket = none ∧
    (stopEverything s).1.recorder = false ∧
    (stopEverything s).2.head? = some Effect.unsetMount ∧
    (s.socket.isSome = true → Effect.closeSocket ∈ (stopEverything s).2) ∧
    (s.recorder = true → Effect.stopRecorder ∈ (stopEverything s).2) ∧
    (socketOnClose (stopEverything s).1).1 = (stopEverything s).1 ∧
    (socketOnClose (stopEverything s).1).2 = [] ∧
    Effect.connectCall ∉ (socketOnError environment (stopEverything s).1).2 ∧
    Effect.openSocket ∉ (socketOnError environment (stopEverything s).1).2 := by
  obtain ⟨f1, f2, f3, -⟩ := stopEverything_fields s
  obtain ⟨t1, t2, t3, -⟩ := stopEverything_trace s
  obtain ⟨n1, n2⟩ := socketOnError_no_connect environment (stopEverything s).1
  exact ⟨f1, f2, f3, t1, t2, t3, by simp [socketOnClose, f1],
    by simp [socketOnClose, f1], n1, n2⟩

/-- Witness for C4: tearing down the live state closes the socket, stops the
recorder, unsets the flag first, and the in-flight close event reconnects
nothing. -/
theorem C4_teardown_suppresses_reconnect_witness :
    (stopEverything liveState).1.mountRef = false ∧
    (stopEverything liveState).1.socket = none ∧
    (stopEverything liveState).2.head? = some Effect.unsetMount ∧
    Effect.closeSocket ∈ (stopEverything liveState).2 ∧
    Effect.stopRecorder ∈ (stopEverything liveState).2 ∧
    (socketOnClose (stopEverything liveState).1).2 = [] ∧
    Effect.connectCall ∉ (socketOnError "prod" (stopEverything liveState).1).2 := by
  obtain ⟨h1, h2, -, h4, h5, h6, -, h8, h9, -⟩ :=
    C4_teardown_suppresses_reconnect "prod" liveState
  exact ⟨h1, h2, h4, h5 rfl, h6 rfl, h8, h9⟩

/-- The transformation the spec's claim describes for the warning string:
strip exactly a trailing period. Stated from the spec's words, to be
compared with the code's `jsReplaceFirstDot`. -/
def stripTrailingPeriodSpec (s : String) : String :=
  if s.data.getLast? = some '.' then String.mk s.data.dropLast else s

/-- A no-faces message whose warning contains an inner period as well. -/
def msgTwoDots : InboundMessage :=
  { predictions := [], warning := "No face detected. Try again.", error := none }

/-- Counterexample to C5 as stated: on a warning with an inner period the
handler's status is the warning with its first period removed, not the
warning with its trailing period stripped. -/
theorem C5_trailing_period_counterexample :
    (socketOnMessage false msgTwoDots freshState).1.status ≠
        stripTrailingPeriodSpec msgTwoDots.warning ∧
    (socketOnMessage false msgTwoDots freshState).1.status =
        "No face detected Try again." := by
  exact ⟨by decide, by decide⟩

/-- Claim C5 (amended): on a non-error message with an empty prediction
list the handler clears the emotion state and sets the status to the
warning with its first period occurrence removed — which strips the
trailing period whenever the only period is the trailing one, as in the
spec's example — and an absent warning yields the empty status. -/
theorem C5_empty_predictions_amended (cal : Bool) (s : SessionState)
    (m : InboundMessage) (h1 : errTruthy m.error = false)
    (h2 : m.predictions = []) :
    (socketOnMessage cal m s).1.emotions = [] ∧
    (socketOnMessage cal m s).1.status = jsReplaceFirstDot m.warning ∧
    (m.warning = "" → (socketOnMessage cal m s).1.status = "") := by
  have key : (socketOnMessage cal m s).1.emotions = [] ∧
      (socketOnMessage cal m s).1.status = jsReplaceFirstDot m.warning := by
    rcases hs : s.socket with _ | rs <;>
      by_cases hr : s.recorder <;>
        simp [socketOnMessage, capturePhoto, sendRequest, h1, h2, hs, hr] <;>
        (try split_ifs) <;> simp
  refine ⟨key.1, key.2, ?_⟩
  intro hw
  rw [key.2, hw]
  decide

/-- Witness for the amended C5: the spec's example message yields an empty
emotion list and the status string with the trailing period stripped. -/
theorem C5_empty_predictions_amended_witness :
    errTruthy msgEmpty.error = false ∧
    (socketOnMessage false msgEmpty freshState).1.emotions = [] ∧
    (socketOnMessage false msgEmpty freshState).1.status = "No faces detected" := by
  obtain ⟨h1, h2, -⟩ :=
    C5_empty_predictions_amended false freshState msgEmpty (by decide) rfl
  refine ⟨by decide, h1, ?_⟩
  rw [h2]
  decide

/-- A state with a recorder whose socket exists but is still connecting. -/
def connState : SessionState :=
  { freshState with
      recorder := true
      socket := some ReadyState.CONNECTING }

/-- Counterexample to C6 as stated: a capture attempt on a present but
non-OPEN socket does modify session state — it closes the socket — though
it sends nothing. -/
theorem C6_drop_modifies_socket_counterexample :
    (capturePhoto connState).1 ≠ connState ∧
    (capturePhoto connState).1.socket = some ReadyState.CLOSING ∧
    Effect.closeSocket ∈ (capturePhoto connState).2 ∧
    Effect.sendFrame ∉ (capturePhoto connState).2 := by
  exact ⟨by decide, by decide, by decide, by decide⟩

/-- Claim C6 (amended): when no connection is open, `capturePhoto` and
`sendRequest` send no frame and buffer nothing — every field of the session
state other than the socket is untouched and with an absent socket (or no
recorder) the state is completely unchanged — but when a socket exists in a
non-OPEN state the dropped attempt logs an error and additionally closes
that socket. -/
theorem C6_drop_without_send_amended (s : SessionState)
    (h : ∀ rs, s.socket = some rs → rs ≠ ReadyState.OPEN) :
    Effect.sendFrame ∉ (capturePhoto s).2 ∧
    Effect.sendFrame ∉ (sendRequest s).2 ∧
    (capturePhoto s).1.emotions = s.emotions ∧
    (capturePhoto s).1.trackedFaces = s.trackedFaces ∧
    (capturePhoto s).1.status = s.status ∧
    (capturePhoto s).1.mountRef = s.mountRef ∧
    (capturePhoto s).1.numReconnects = s.numReconnects ∧
    (capturePhoto s).1.recorder = s.recorder ∧
    (s.socket = none → (capturePhoto s).1 = s ∧ (sendRequest s).1 = s) ∧
    (s.recorder = false → (capturePhoto s).1 = s) ∧
    (∀ rs, s.socket = some rs → s.recorder = true →
      (capturePhoto s).1.socket = some (closeRS rs) ∧
      Effect.closeSocket ∈ (capturePhoto s).2 ∧
      (∃ msg, Effect.logError msg ∈ (capturePhoto s).2)) := by
  rcases hs : s.socket with _ | rs
  · by_cases hr : s.recorder <;>
      simp [capturePhoto, sendRequest, hs, hr]
  · have hrs : rs ≠ ReadyState.OPEN := h rs hs
    by_cases hr : s.recorder <;>
      simp [capturePhoto, sendRequest, hs, hr, hrs]

/-- Witness for the amended C6: with a recorder present and the socket still
connecting, nothing is sent and the socket ends up closing. -/
theorem C6_drop_without_send_amended_witness :
    Effect.sendFrame ∉ (capturePhoto connState).2 ∧
    (capturePhoto connState).1.socket = some ReadyState.CLOSING ∧
    Effect.closeSocket ∈ (capturePhoto connState).2 := by
  have hcon : ∀ rs, connState.socket = some rs → rs ≠ ReadyState.OPEN := by
    intro rs hrs
    have h2 : ReadyState.CONNECTING = rs := by
      simpa [connState, freshState] using hrs
    subst h2
    decide
  obtain ⟨h1, -, -, -, -, -, -, -, -, -, h11⟩ :=
    C6_drop_without_send_amended connState hcon
  obtain ⟨h12, h13, -⟩ := h11 ReadyState.CONNECTING rfl rfl
  exact ⟨h1, h12, h13⟩

/-- Counterexample to C7 as stated: rendering `TopEmotions` runs
`emotions.sort(...)` in place, so the prop array comes out reordered, not
with its elements in the same order. -/
theorem C7_prop_array_mutated_counterexample :
    (renderTopEmotions [⟨"Boredom", 0⟩, ⟨"Joy", 1⟩] 3).postProps ≠
        [⟨"Boredom", 0⟩, ⟨"Joy", 1⟩] ∧
    (renderTopEmotions [⟨"Boredom", 0⟩, ⟨"Joy", 1⟩] 3).postProps =
        [⟨"Joy", 1⟩, ⟨"Boredom", 0⟩] := by
  exact ⟨by decide, by decide⟩

/-- Claim C7 (amended): rendering `TopEmotions` retains no state and leaves
the prop array with exactly the same elements, but reordered in place into
descending score order; the rendered rows are an initial segment of that
reordered array. -/
theorem C7_render_permutes_props_amended (es : List Emotion) (n : Nat) :
    ((renderTopEmotions es n).postProps).Perm es ∧
    ((renderTopEmotions es n).postProps).Sorted scoreGe ∧
    (renderTopEmotions es n).rows = ((renderTopEmotions es n).postProps).take n :=
  ⟨List.perm_insertionSort scoreGe es,
    List.sorted_insertionSort scoreGe es, rfl⟩

lemma foldl_add_eq (l : List Emotion) (a : Rat) :
    l.foldl (fun acc e => acc + e.score) a = a + scoreSum l := by
  induction l generalizing a with
  | nil => simp [scoreSum]
  | cons e t ih =>
    rw [List.foldl_cons, ih, scoreSum]
    ring

lemma foldl_sub_eq (l : List Emotion) (a : Rat) :
    l.foldl (fun acc e => acc - e.score) a = a - scoreSum l := by
  induction l generalizing a with
  | nil => simp [scoreSum]
  | cons e t ih =>
    rw [List.foldl_cons, ih, scoreSum]
    ring

lemma pos_metric_eq (es : List Emotion) : pos_metric es = sumPos es := by
  rw [pos_metric, sumPos, foldl_add_eq, zero_add]

lemma neg_metric_eq (es : List Emotion) : neg_metric es = -sumNeg es := by
  rw [neg_metric, sumNeg, foldl_sub_eq, zero_sub]

lemma metricVal_eq (es : List Emotion) :
    metricVal es = (sumPos es - sumNeg es) * 100 := by
  rw [metricVal, pos_metric_eq, neg_metric_eq]
  field_simp
  ring

/-- Claim C8: the rendered list is the `numEmotions` highest-score emotions
in descending order drawn from the prop list, and the action label is a
function of a single static threshold applied to the linear combination of
the named emotion scores — the positive names summed, the negative names
subtracted — so two emotion lists with equal such sums get the same
label. -/
theorem C8_top_list_and_threshold_label (es es2 : List Emotion) (n : Nat)
    (hp : sumPos es = sumPos es2) (hn : sumNeg es = sumNeg es2) :
    (renderTopEmotions es n).rows = (sortDesc es).take n ∧
    (renderTopEmotions es n).rows.length = min n es.length ∧
    ((renderTopEmotions es n).rows).Sorted scoreGe ∧
    (∀ x ∈ (renderTopEmotions es n).rows, x ∈ es) ∧
    metricVal es = (sumPos es - sumNeg es) * 100 ∧
    (renderTopEmotions es n).label =
      (if (sumPos es - sumNeg es) * 100 > 50
        then "Great work, keep up your poker face. :|"
        else "Calm down, you might be tilting!") ∧
    (renderTopEmotions es n).label = (renderTopEmotions es2 n).label := by
  refine ⟨rfl, ?_, ?_, ?_, metricVal_eq es, ?_, ?_⟩
  · simp [renderTopEmotions, sortDesc, List.length_take,
      (List.perm_insertionSort scoreGe es).length_eq]
  · exact List.Pairwise.sublist (List.take_sublist n _)
      (List.sorted_insertionSort scoreGe es)
  · intro x hx
    exact (List.perm_insertionSort scoreGe es).subset
      (List.take_subset n _ hx)
  · show actionMessage es = _
    rw [actionMessage, metricVal_eq]
  · show actionMessage es = actionMessage es2
    rw [actionMessage, actionMessage, metricVal_eq, metricVal_eq, hp, hn]

/-- A single calm face list. -/
def esW1 : List Emotion := [⟨"Calmness", 1⟩]

/-- A list with the same positive and negative sums split across entries. -/
def esW2 : List Emotion := [⟨"Calmness", 1/2⟩, ⟨"Calmness", 1/2⟩]

/-- Witness for C8: two lists with equal positive and negative sums produce
the same action label. -/
theorem C8_top_list_and_threshold_label_witness :
    sumPos esW1 = sumPos esW2 ∧ sumNeg esW1 = sumNeg esW2 ∧
    (renderTopEmotions esW1 3).label = (renderTopEmotions esW2 3).label := by
  have hp : sumPos esW1 = sumPos esW2 := by
    norm_num [sumPos, posFilter, posEmotionNames, scoreSum, esW1, esW2]
  have hn : sumNeg esW1 = sumNeg esW2 := by
    norm_num [sumNeg, negFilter, negEmotionNames, scoreSum, esW1, esW2]
  exact ⟨hp, hn,
    (C8_top_list_and_threshold_label esW1 esW2 3 hp hn).2.2.2.2.2.2⟩

end HumePoker
